import Mathlib

/-!
Verification of the `DataProcessor` class of `BigData_Assignemt3_API.py`.

Shallow embedding conventions:
* Exchange rates are modelled as rationals (`ℚ`); Python floats carry exact
  decimal literals in every example the spec uses.
* A Python dict with string keys in insertion order is an association list
  `List (String × ℚ)`; `dict.values()` is `List.map Prod.snd`, and
  dict membership testing for the key is field presence.
* The JSON round trip `json.loads (json.dumps d) = d` is taken as the
  identity, so the cache stores documents directly.
* External collaborators (the HTTP client and the Redis client) are
  modelled by a `World` record fixing their outcomes for one call:
  whether the Redis GET raises and what `requests.get` returns.
  `requests.Response.raise_for_status` raises exactly for status codes in
  `[400, 600)`, per the requests library.  In redis-py,
  `JSONCommands.set(name, path, obj)` has three required positional
  parameters: the two-argument call on line 41 of the source therefore
  raises `TypeError` at the call site, before any Redis I/O, while the
  well-formed three-argument call on line 58 performs real I/O and may
  raise `redis.RedisError` (its outcome is the `writeOk` argument of
  `insert_into_redis`).
* An exception that the source does not catch is modelled as an
  `Except.error` result of the embedded method.
* `print` diagnostics are modelled only where a claim mentions them
  (`insert_into_redis` records the caught exception, if any).
-/

namespace DataProcessor

/-- Python exception classes that the script can raise or catch. -/
inductive PyError where
  | requestException
  | jsonDecodeError
  | redisError
  | typeError
  | zeroDivisionError
  deriving DecidableEq, Repr

/-- The provider's JSON document.  Only the `conversion_rates` field is ever
read by the script; `none` models a dict without that field. -/
structure Document where
  conversion_rates : Option (List (String × ℚ))
  deriving DecidableEq, Repr

/-- An arbitrary Python value passed to `insert_into_redis`: either `None`
(on which the membership test `'conversion_rates' in data` raises
`TypeError`) or a JSON document (a dict). -/
inductive PyValue where
  | pyNone
  | pyDict (d : Document)
  deriving DecidableEq, Repr

/-- The HTTP response of `requests.get`: a status code and a parsed JSON
body (`none` models a malformed body, on which `response.json()` raises
`json.JSONDecodeError`). -/
structure HttpResponse where
  status : Nat
  body : Option Document
  deriving DecidableEq, Repr

/-- The two fixed Redis keys used by the script. -/
structure Cache where
  exchange_rate_data : Option Document
  exchange_rates : Option (List (String × ℚ))
  deriving DecidableEq, Repr

/-- Outcomes of the external collaborators during one call:
`cacheReadOk = false` means the Redis GET raises `redis.RedisError`;
`response = none` means `requests.get` raises `requests.RequestException`.
No outcome is needed for the cache write on line 41: that call raises
`TypeError` before reaching Redis (see `fetch_json_from_api`). -/
structure World where
  cacheReadOk : Bool
  response : Option HttpResponse
  deriving DecidableEq, Repr

/-- The check of `requests.Response.raise_for_status`: it raises `requests.HTTPError` exactly
for client-error (4xx) and server-error (5xx) status codes. -/
def isHttpError (status : Nat) : Bool :=
  decide (400 ≤ status ∧ status < 600)

/-- Normal return of `fetch_json_from_api`: the returned value (`none`
when the `except` clause returns `None`), the cache state afterwards, and
whether `requests.get` was invoked.  An uncaught exception is modelled as
`.error` instead of this structure. -/
structure FetchResult where
  result : Option Document
  cache : Cache
  networkCalled : Bool
  deriving DecidableEq, Repr

deriving instance DecidableEq for Except

/-- Embedding of `DataProcessor.fetch_json_from_api`, lines 26-45 of the source.
Reads the key `"exchange_rate_data"`; on a hit returns the parsed cached
document.  On a miss performs the HTTP GET, calls `raise_for_status` and
parses the body; `requests.RequestException`, `json.JSONDecodeError` and
`redis.RedisError` raised in the `try` block are caught and the method
returns `None`.  The cache-write call on line 41,
`self.redis_client.json().set("exchange_rate_data", json.dumps(data))`,
passes only two arguments to redis-py's `JSONCommands.set(name, path,
obj)`, whose three positional parameters are all required: it raises
`TypeError` at the call site, before any Redis I/O.  `TypeError` is not
in the `except` tuple on line 43, so on this path nothing is written and
nothing is returned — the exception propagates to the caller. -/
def fetch_json_from_api (w : World) (c : Cache) : Except PyError FetchResult :=
  if w.cacheReadOk then
    match c.exchange_rate_data with
    | some d => .ok ⟨some d, c, false⟩
    | none =>
      match w.response with
      | none => .ok ⟨none, c, true⟩
      | some resp =>
        if isHttpError resp.status then
          .ok ⟨none, c, true⟩
        else
          match resp.body with
          | none => .ok ⟨none, c, true⟩
          | some _ => .error .typeError
  else
    .ok ⟨none, c, false⟩

/-- Result of `insert_into_redis`: the cache afterwards and the exception
caught and printed by the `except` clause, if any. -/
structure InsertResult where
  cache : Cache
  log : List PyError
  deriving DecidableEq, Repr

/-- The `try` block of `insert_into_redis` (lines 54-58): the membership
test on `None` raises `TypeError`; a dict without the field does nothing;
otherwise the RedisJSON SET stores the extracted mapping under the key
`"exchange_rates"` (or raises `redis.RedisError`). -/
def insertBody (writeOk : Bool) (v : PyValue) (c : Cache) :
    Except PyError Cache :=
  match v with
  | .pyNone => .error .typeError
  | .pyDict d =>
    match d.conversion_rates with
    | none => .ok c
    | some rates =>
      if writeOk then .ok { c with exchange_rates := some rates }
      else .error .redisError

/-- Embedding of `DataProcessor.insert_into_redis`, lines 47-60 of the source: the body
wrapped in `try ... except Exception as e: print(...)`, which catches every
exception, prints it, and leaves the cache as it was at the raise point. -/
def insert_into_redis (writeOk : Bool) (v : PyValue) (c : Cache) :
    InsertResult :=
  match insertBody writeOk v c with
  | .ok c₂ => ⟨c₂, []⟩
  | .error e => ⟨c, [e]⟩

/-- Comparison key of `sorted(conversion_rates.items(), key=lambda x: x[1])`:
compare currency entries by their rate value. -/
def rateLe (p q : String × ℚ) : Prop :=
  p.2 ≤ q.2

instance : DecidableRel rateLe :=
  fun p q => inferInstanceAs (Decidable (p.2 ≤ q.2))

instance : IsTotal (String × ℚ) rateLe :=
  ⟨fun p q => le_total p.2 q.2⟩

instance : IsTrans (String × ℚ) rateLe :=
  ⟨fun _ _ _ h₁ h₂ => le_trans h₁ h₂⟩

/-- The bar chart handed to matplotlib: one `(currency, rate)` bar per
entry, in left-to-right order. -/
structure PlotData where
  bars : List (String × ℚ)
  deriving DecidableEq, Repr

/-- Embedding of `DataProcessor.plot_exchange_rates`, lines 62-79 of the source.
Fetches the document — an exception escaping the fetch propagates through
this method, which has no `try` block of its own.  If the fetch returns
`None` or the document lacks `conversion_rates`, does nothing.  Otherwise
sorts the entries by rate value — CPython's `sorted` is a stable sort, as
is insertion sort — and renders one bar per entry. -/
def plot_exchange_rates (w : World) (c : Cache) :
    Except PyError (Option PlotData) :=
  match fetch_json_from_api w c with
  | .error e => .error e
  | .ok fr =>
    match fr.result with
    | none => .ok none
    | some d =>
      match d.conversion_rates with
      | none => .ok none
      | some rates => .ok (some ⟨List.insertionSort rateLe rates⟩)

/-- The four statistics printed by `aggregate_exchange_rates`. -/
structure AggReport where
  average_rate : ℚ
  min_rate : ℚ
  max_rate : ℚ
  median_rate : ℚ
  deriving DecidableEq, Repr

/-- Embedding of `DataProcessor.aggregate_exchange_rates`, lines 82-97 of the source.
Fetches the document — an exception escaping the fetch propagates through
this method, which has no `try` block of its own.  If the fetch returns
`None` or the document lacks `conversion_rates`, does nothing
(`.ok none`).  On an empty mapping `sum(...) / len(...)` raises an
uncaught `ZeroDivisionError`.  Otherwise prints the mean `sum/len`, `min`,
`max`, and `sorted(values)[len // 2]`.  Python's `min`/`max` of a nonempty
iterable are left folds over its items; the median index `len // 2` is in
range for a nonempty list, so the `getD` default is never reached. -/
def aggregate_exchange_rates (w : World) (c : Cache) :
    Except PyError (Option AggReport) :=
  match fetch_json_from_api w c with
  | .error e => .error e
  | .ok fr =>
    match fr.result with
    | none => .ok none
    | some d =>
      match d.conversion_rates with
      | none => .ok none
      | some rates =>
      match rates.map Prod.snd with
      | [] => .error .zeroDivisionError
      | v :: vs =>
        .ok (some
          { average_rate := (v :: vs).sum / ((v :: vs).length : ℚ)
            min_rate := vs.foldl min v
            max_rate := vs.foldl max v
            median_rate :=
              (List.insertionSort (· ≤ ·) (v :: vs)).getD
                ((v :: vs).length / 2) 0 })

/-- Embedding of `DataProcessor.search_exchange_rates`, lines 99-107 of the source.
Fetches the document — an exception escaping the fetch propagates through
this method, which has no `try` block of its own.  If the fetch returns
`None` or the document lacks `conversion_rates`, does nothing.  Otherwise
prints the list comprehension keeping each currency whose rate satisfies
`min_value <= rate <= max_value`, in mapping order. -/
def search_exchange_rates (w : World) (c : Cache)
    (min_value max_value : ℚ) : Except PyError (Option (List String)) :=
  match fetch_json_from_api w c with
  | .error e => .error e
  | .ok fr =>
    match fr.result with
    | none => .ok none
    | some d =>
      match d.conversion_rates with
      | none => .ok none
      | some rates =>
        .ok (some ((rates.filter
          (fun p => decide (min_value ≤ p.2 ∧ p.2 ≤ max_value))).map Prod.fst))

/-! ## Helper lemmas -/

/-- Python's `min` over a nonempty iterable returns one of its items. -/
theorem foldl_min_mem (v : ℚ) (vs : List ℚ) : vs.foldl min v ∈ v :: vs := by
  induction vs generalizing v with
  | nil => exact List.mem_cons_self v []
  | cons b bs ih =>
    rw [List.foldl_cons]
    rcases List.mem_cons.mp (ih (min v b)) with h₁ | h₁
    · rcases min_choice v b with h₂ | h₂
      · rw [h₁, h₂]; exact List.mem_cons_self _ _
      · rw [h₁, h₂]; exact List.mem_cons_of_mem _ (List.mem_cons_self _ _)
    · exact List.mem_cons_of_mem _ (List.mem_cons_of_mem _ h₁)

/-- Python's `min` over a nonempty iterable is a lower bound of its items. -/
theorem foldl_min_le (v : ℚ) (vs : List ℚ) : ∀ x ∈ v :: vs, vs.foldl min v ≤ x := by
  induction vs generalizing v with
  | nil =>
    intro x hx
    rw [List.mem_singleton] at hx
    rw [hx, List.foldl_nil]
  | cons b bs ih =>
    intro x hx
    rw [List.foldl_cons]
    rcases List.mem_cons.mp hx with h | h
    · rw [h]
      exact le_trans (ih (min v b) _ (List.mem_cons_self _ _)) (min_le_left v b)
    · rcases List.mem_cons.mp h with h' | h'
      · rw [h']
        exact le_trans (ih (min v b) _ (List.mem_cons_self _ _)) (min_le_right v b)
      · exact ih (min v b) x (List.mem_cons_of_mem _ h')

/-- Python's `max` over a nonempty iterable returns one of its items. -/
theorem foldl_max_mem (v : ℚ) (vs : List ℚ) : vs.foldl max v ∈ v :: vs := by
  induction vs generalizing v with
  | nil => exact List.mem_cons_self v []
  | cons b bs ih =>
    rw [List.foldl_cons]
    rcases List.mem_cons.mp (ih (max v b)) with h₁ | h₁
    · rcases max_choice v b with h₂ | h₂
      · rw [h₁, h₂]; exact List.mem_cons_self _ _
      · rw [h₁, h₂]; exact List.mem_cons_of_mem _ (List.mem_cons_self _ _)
    · exact List.mem_cons_of_mem _ (List.mem_cons_of_mem _ h₁)

/-- Python's `max` over a nonempty iterable is an upper bound of its items. -/
theorem le_foldl_max (v : ℚ) (vs : List ℚ) : ∀ x ∈ v :: vs, x ≤ vs.foldl max v := by
  induction vs generalizing v with
  | nil =>
    intro x hx
    rw [List.mem_singleton] at hx
    rw [hx, List.foldl_nil]
  | cons b bs ih =>
    intro x hx
    rw [List.foldl_cons]
    rcases List.mem_cons.mp hx with h | h
    · rw [h]
      exact le_trans (le_max_left v b) (ih (max v b) _ (List.mem_cons_self _ _))
    · rcases List.mem_cons.mp h with h' | h'
      · rw [h']
        exact le_trans (le_max_right v b) (ih (max v b) _ (List.mem_cons_self _ _))
      · exact ih (max v b) x (List.mem_cons_of_mem _ h')

/-- Inserting an entry whose rate is `val` into a list puts it in front of
every other entry of rate `val` (the traversal only passes entries of
strictly smaller rate). -/
theorem filter_orderedInsert_eq (x : String × ℚ) (l : List (String × ℚ))
    (val : ℚ) (hx : x.2 = val) :
    (List.orderedInsert rateLe x l).filter (fun q => decide (q.2 = val)) =
      x :: l.filter (fun q => decide (q.2 = val)) := by
  induction l with
  | nil => simp [hx]
  | cons b bs ih =>
    by_cases h : rateLe x b
    · rw [List.orderedInsert_of_le rateLe bs h, List.filter_cons, if_pos (by simp [hx])]
    · have hb : b.2 < x.2 := lt_of_not_le h
      have hbv : ¬ (b.2 = val) := by rw [← hx]; exact ne_of_lt hb
      rw [List.orderedInsert, if_neg h, List.filter_cons, if_neg (by simp [hbv]),
        ih, List.filter_cons, if_neg (by simp [hbv])]

/-- Inserting an entry whose rate is not `val` does not change the entries
of rate `val`. -/
theorem filter_orderedInsert_ne (x : String × ℚ) (l : List (String × ℚ))
    (val : ℚ) (hx : ¬ (x.2 = val)) :
    (List.orderedInsert rateLe x l).filter (fun q => decide (q.2 = val)) =
      l.filter (fun q => decide (q.2 = val)) := by
  induction l with
  | nil => simp [hx]
  | cons b bs ih =>
    by_cases h : rateLe x b
    · rw [List.orderedInsert_of_le rateLe bs h, List.filter_cons, if_neg (by simp [hx])]
    · rw [List.orderedInsert, if_neg h, List.filter_cons, ih, List.filter_cons]

/-- Stability of the rate-keyed sort: restricting the sorted list to the
entries of any fixed rate `val` gives back those entries in their original
order. -/
theorem filter_insertionSort_rateLe (val : ℚ) (l : List (String × ℚ)) :
    (List.insertionSort rateLe l).filter (fun q => decide (q.2 = val)) =
      l.filter (fun q => decide (q.2 = val)) := by
  induction l with
  | nil => rfl
  | cons b bs ih =>
    by_cases hb : b.2 = val
    · rw [List.insertionSort, filter_orderedInsert_eq b _ val hb, ih,
        List.filter_cons, if_pos (by simp [hb])]
    · rw [List.insertionSort, filter_orderedInsert_ne b _ val hb, ih,
        List.filter_cons, if_neg (by simp [hb])]

/-- Unfolding `aggregate_exchange_rates` on a normally-returned document
with a nonempty mapping. -/
theorem aggregate_result (w : World) (c : Cache) (fr : FetchResult)
    (d : Document) (p : String × ℚ) (ps : List (String × ℚ))
    (hfetch : fetch_json_from_api w c = .ok fr)
    (hres : fr.result = some d)
    (hrates : d.conversion_rates = some (p :: ps)) :
    aggregate_exchange_rates w c = .ok (some
      { average_rate :=
          (p.2 :: ps.map Prod.snd).sum / ((p.2 :: ps.map Prod.snd).length : ℚ)
        min_rate := (ps.map Prod.snd).foldl min p.2
        max_rate := (ps.map Prod.snd).foldl max p.2
        median_rate :=
          (List.insertionSort (· ≤ ·) (p.2 :: ps.map Prod.snd)).getD
            ((p.2 :: ps.map Prod.snd).length / 2) 0 }) := by
  simp only [aggregate_exchange_rates, hfetch, hres, hrates, List.map_cons]

/-! ## Claim theorems -/

/-- Claim C1: for every document whose `conversion_rates` mapping is
non-empty with `n` entries, `aggregate_exchange_rates` reports as the
median the value at index `n / 2` of the rate values sorted ascending
(so for even `n` the upper-middle value, not the average of the two
middle values).  Stated for an arbitrary ascending-sorted permutation `l`
of the rate values. -/
theorem C1_median_is_sorted_upper_middle (w : World) (c : Cache)
    (fr : FetchResult) (d : Document) (rates : List (String × ℚ))
    (l : List ℚ)
    (hfetch : fetch_json_from_api w c = .ok fr)
    (hres : fr.result = some d)
    (hrates : d.conversion_rates = some rates)
    (hne : rates ≠ [])
    (hperm : l.Perm (rates.map Prod.snd))
    (hsorted : l.Sorted (· ≤ ·)) :
    ∃ rep : AggReport, aggregate_exchange_rates w c = .ok (some rep) ∧
      l.get? (rates.length / 2) = some rep.median_rate := by
  obtain ⟨p, ps, rfl⟩ : ∃ p ps, rates = p :: ps := by
    cases rates with
    | nil => exact absurd rfl hne
    | cons p ps => exact ⟨p, ps, rfl⟩
  refine ⟨_, aggregate_result w c fr d p ps hfetch hres hrates, ?_⟩
  have hperm₂ : l.Perm (p.2 :: ps.map Prod.snd) := by
    simpa using hperm
  have hl : l = List.insertionSort (· ≤ ·) (p.2 :: ps.map Prod.snd) :=
    List.eq_of_perm_of_sorted
      (hperm₂.trans (List.perm_insertionSort _ _).symm)
      hsorted (List.sorted_insertionSort _ _)
  have hlen :
      (List.insertionSort (· ≤ ·) (p.2 :: ps.map Prod.snd)).length =
        (p.2 :: ps.map Prod.snd).length :=
    (List.perm_insertionSort _ _).length_eq
  have hlt : (p.2 :: ps.map Prod.snd).length / 2 <
      (List.insertionSort (· ≤ ·) (p.2 :: ps.map Prod.snd)).length := by
    rw [hlen]
    exact Nat.div_lt_self (Nat.succ_pos _) (by decide)
  have hlen₂ : (p :: ps).length = (p.2 :: ps.map Prod.snd).length := by
    simp
  rw [hl, hlen₂, List.get?_eq_getElem?, List.getElem?_eq_getElem hlt,
    List.getD_eq_getElem?_getD, List.getElem?_eq_getElem hlt]
  rfl

/-- Claim C1 witness: the spec's even-size example.  Four rates
`{A:1, B:2, C:3, D:4}` give median `3` (sorted index `4 / 2 = 2`),
not `5/2`. -/
theorem C1_median_witness :
    ∃ rep : AggReport,
      aggregate_exchange_rates ⟨true, none⟩
        ⟨some ⟨some [("A", 1), ("B", 2), ("C", 3), ("D", 4)]⟩, none⟩ =
          .ok (some rep) ∧
      [(1 : ℚ), 2, 3, 4].get?
        (([("A", (1 : ℚ)), ("B", 2), ("C", 3), ("D", 4)]).length / 2) =
        some rep.median_rate :=
  C1_median_is_sorted_upper_middle ⟨true, none⟩
    ⟨some ⟨some [("A", 1), ("B", 2), ("C", 3), ("D", 4)]⟩, none⟩
    ⟨some ⟨some [("A", 1), ("B", 2), ("C", 3), ("D", 4)]⟩,
      ⟨some ⟨some [("A", 1), ("B", 2), ("C", 3), ("D", 4)]⟩, none⟩, false⟩
    ⟨some [("A", 1), ("B", 2), ("C", 3), ("D", 4)]⟩
    [("A", 1), ("B", 2), ("C", 3), ("D", 4)]
    [1, 2, 3, 4] rfl rfl rfl (by simp) (by decide) (by decide)

/-- Claim C5: for every document whose `conversion_rates` mapping is
non-empty, `aggregate_exchange_rates` reports an average equal to the sum
of the rate values divided by their count, a minimum that is a value and a
lower bound of all values, and a maximum that is a value and an upper
bound of all values. -/
theorem C5_aggregate_mean_min_max (w : World) (c : Cache)
    (fr : FetchResult) (d : Document) (rates : List (String × ℚ))
    (hfetch : fetch_json_from_api w c = .ok fr)
    (hres : fr.result = some d)
    (hrates : d.conversion_rates = some rates)
    (hne : rates ≠ []) :
    ∃ rep : AggReport, aggregate_exchange_rates w c = .ok (some rep) ∧
      rep.average_rate = (rates.map Prod.snd).sum / (rates.length : ℚ) ∧
      rep.min_rate ∈ rates.map Prod.snd ∧
      (∀ x ∈ rates.map Prod.snd, rep.min_rate ≤ x) ∧
      rep.max_rate ∈ rates.map Prod.snd ∧
      (∀ x ∈ rates.map Prod.snd, x ≤ rep.max_rate) := by
  obtain ⟨p, ps, rfl⟩ : ∃ p ps, rates = p :: ps := by
    cases rates with
    | nil => exact absurd rfl hne
    | cons p ps => exact ⟨p, ps, rfl⟩
  refine ⟨_, aggregate_result w c fr d p ps hfetch hres hrates, ?_, ?_, ?_, ?_, ?_⟩
  · simp
  · simpa using foldl_min_mem p.2 (ps.map Prod.snd)
  · intro x hx
    exact foldl_min_le p.2 (ps.map Prod.snd) x (by simpa using hx)
  · simpa using foldl_max_mem p.2 (ps.map Prod.snd)
  · intro x hx
    exact le_foldl_max p.2 (ps.map Prod.snd) x (by simpa using hx)

/-- Claim C5 witness: over `{A:1, B:2, C:3, D:4}` the reported average is
the arithmetic mean `5/2`, the minimum is `1` and the maximum is `4`. -/
theorem C5_aggregate_witness :
    ∃ rep : AggReport,
      aggregate_exchange_rates ⟨true, none⟩
        ⟨some ⟨some [("A", 1), ("B", 2), ("C", 3), ("D", 4)]⟩, none⟩ =
          .ok (some rep) ∧
      rep.average_rate =
        (([("A", (1 : ℚ)), ("B", 2), ("C", 3), ("D", 4)]).map Prod.snd).sum /
          ((([("A", (1 : ℚ)), ("B", 2), ("C", 3), ("D", 4)]).length : ℚ)) ∧
      rep.min_rate ∈ ([("A", (1 : ℚ)), ("B", 2), ("C", 3), ("D", 4)]).map Prod.snd ∧
      (∀ x ∈ ([("A", (1 : ℚ)), ("B", 2), ("C", 3), ("D", 4)]).map Prod.snd,
        rep.min_rate ≤ x) ∧
      rep.max_rate ∈ ([("A", (1 : ℚ)), ("B", 2), ("C", 3), ("D", 4)]).map Prod.snd ∧
      (∀ x ∈ ([("A", (1 : ℚ)), ("B", 2), ("C", 3), ("D", 4)]).map Prod.snd,
        x ≤ rep.max_rate) :=
  C5_aggregate_mean_min_max ⟨true, none⟩
    ⟨some ⟨some [("A", 1), ("B", 2), ("C", 3), ("D", 4)]⟩, none⟩
    ⟨some ⟨some [("A", 1), ("B", 2), ("C", 3), ("D", 4)]⟩,
      ⟨some ⟨some [("A", 1), ("B", 2), ("C", 3), ("D", 4)]⟩, none⟩, false⟩
    ⟨some [("A", 1), ("B", 2), ("C", 3), ("D", 4)]⟩
    [("A", 1), ("B", 2), ("C", 3), ("D", 4)] rfl rfl rfl (by simp)

/-- Claim C4: for every available `conversion_rates` mapping and bounds
`(min_value, max_value)`, `search_exchange_rates` reports exactly the
currency codes whose rate `r` satisfies `min_value ≤ r ≤ max_value`,
inclusive at both ends, in the mapping's iteration order. -/
theorem C4_search_inclusive_range (w : World) (c : Cache)
    (fr : FetchResult) (d : Document)
    (rates : List (String × ℚ)) (min_value max_value : ℚ)
    (hfetch : fetch_json_from_api w c = .ok fr)
    (hres : fr.result = some d)
    (hrates : d.conversion_rates = some rates) :
    ∃ out : List String,
      search_exchange_rates w c min_value max_value = .ok (some out) ∧
      out = (rates.filter
        (fun p => decide (min_value ≤ p.2 ∧ p.2 ≤ max_value))).map Prod.fst ∧
      ∀ code, code ∈ out ↔
        ∃ r, (code, r) ∈ rates ∧ min_value ≤ r ∧ r ≤ max_value := by
  refine ⟨_, ?_, rfl, ?_⟩
  · simp only [search_exchange_rates, hfetch, hres, hrates]
  · intro code
    simp only [List.mem_map, List.mem_filter, decide_eq_true_eq]
    constructor
    · rintro ⟨⟨s, r⟩, ⟨hmem, hlo, hhi⟩, rfl⟩
      exact ⟨r, hmem, hlo, hhi⟩
    · rintro ⟨r, hmem, hlo, hhi⟩
      exact ⟨(code, r), ⟨hmem, hlo, hhi⟩, rfl⟩

/-- Claim C4 witness: the spec's example — `searchRates(0.5, 2.0)` over
`{A:0.4, B:0.5, C:1.0, D:2.0, E:2.1}` reports `[B, C, D]`. -/
theorem C4_search_witness :
    (∃ out : List String,
      search_exchange_rates ⟨true, none⟩
        ⟨some ⟨some [("A", 2/5), ("B", 1/2), ("C", 1), ("D", 2), ("E", 21/10)]⟩,
          none⟩ (1/2) 2 = .ok (some out) ∧
      out = (([("A", (2 : ℚ)/5), ("B", 1/2), ("C", 1), ("D", 2),
          ("E", 21/10)]).filter
        (fun p => decide ((1 : ℚ)/2 ≤ p.2 ∧ p.2 ≤ 2))).map Prod.fst ∧
      ∀ code, code ∈ out ↔
        ∃ r, (code, r) ∈
            [("A", (2 : ℚ)/5), ("B", 1/2), ("C", 1), ("D", 2), ("E", 21/10)] ∧
          (1 : ℚ)/2 ≤ r ∧ r ≤ 2) ∧
    search_exchange_rates ⟨true, none⟩
      ⟨some ⟨some [("A", 2/5), ("B", 1/2), ("C", 1), ("D", 2), ("E", 21/10)]⟩,
        none⟩ (1/2) 2 = .ok (some ["B", "C", "D"]) :=
  ⟨C4_search_inclusive_range ⟨true, none⟩
      ⟨some ⟨some [("A", 2/5), ("B", 1/2), ("C", 1), ("D", 2), ("E", 21/10)]⟩,
        none⟩
      ⟨some ⟨some [("A", 2/5), ("B", 1/2), ("C", 1), ("D", 2), ("E", 21/10)]⟩,
        ⟨some ⟨some [("A", 2/5), ("B", 1/2), ("C", 1), ("D", 2),
          ("E", 21/10)]⟩, none⟩, false⟩
      ⟨some [("A", 2/5), ("B", 1/2), ("C", 1), ("D", 2), ("E", 21/10)]⟩
      [("A", 2/5), ("B", 1/2), ("C", 1), ("D", 2), ("E", 21/10)]
      (1/2) 2 rfl rfl rfl,
    by norm_num [search_exchange_rates, fetch_json_from_api, List.filter]⟩

/-- Claim C7: for every available `conversion_rates` mapping,
`plot_exchange_rates` orders the currency entries ascending by rate value
before rendering, and the order is stable: restricting the bars to the
entries of any fixed rate value gives those entries in their original
mapping order. -/
theorem C7_plot_sorted_ascending_stable (w : World) (c : Cache)
    (fr : FetchResult) (d : Document) (rates : List (String × ℚ))
    (hfetch : fetch_json_from_api w c = .ok fr)
    (hres : fr.result = some d)
    (hrates : d.conversion_rates = some rates) :
    ∃ pd : PlotData, plot_exchange_rates w c = .ok (some pd) ∧
      pd.bars.Sorted rateLe ∧
      pd.bars.Perm rates ∧
      ∀ val : ℚ, pd.bars.filter (fun q => decide (q.2 = val)) =
        rates.filter (fun q => decide (q.2 = val)) := by
  refine ⟨⟨List.insertionSort rateLe rates⟩, ?_, ?_, ?_, ?_⟩
  · simp only [plot_exchange_rates, hfetch, hres, hrates]
  · exact List.sorted_insertionSort rateLe rates
  · exact List.perm_insertionSort rateLe rates
  · intro val
    exact filter_insertionSort_rateLe val rates

/-- Claim C7 witness: over `{X:2, Y:1, Z:2}` the bars come out as
`[Y:1, X:2, Z:2]` — ascending by rate, with the tied entries `X` and `Z`
kept in their original order. -/
theorem C7_plot_witness :
    (∃ pd : PlotData,
      plot_exchange_rates ⟨true, none⟩
        ⟨some ⟨some [("X", 2), ("Y", 1), ("Z", 2)]⟩, none⟩ = .ok (some pd) ∧
      pd.bars.Sorted rateLe ∧
      pd.bars.Perm [("X", (2 : ℚ)), ("Y", 1), ("Z", 2)] ∧
      ∀ val : ℚ, pd.bars.filter (fun q => decide (q.2 = val)) =
        ([("X", (2 : ℚ)), ("Y", 1), ("Z", 2)]).filter
          (fun q => decide (q.2 = val))) ∧
    plot_exchange_rates ⟨true, none⟩
      ⟨some ⟨some [("X", 2), ("Y", 1), ("Z", 2)]⟩, none⟩ =
        .ok (some ⟨[("Y", 1), ("X", 2), ("Z", 2)]⟩) :=
  ⟨C7_plot_sorted_ascending_stable ⟨true, none⟩
      ⟨some ⟨some [("X", 2), ("Y", 1), ("Z", 2)]⟩, none⟩
      ⟨some ⟨some [("X", 2), ("Y", 1), ("Z", 2)]⟩,
        ⟨some ⟨some [("X", 2), ("Y", 1), ("Z", 2)]⟩, none⟩, false⟩
      ⟨some [("X", 2), ("Y", 1), ("Z", 2)]⟩
      [("X", 2), ("Y", 1), ("Z", 2)] rfl rfl rfl,
    by decide⟩

/-- Claim C8: whenever `fetch_json_from_api` yields an empty/absent
result, each of `plot_exchange_rates`, `aggregate_exchange_rates` and
`search_exchange_rates` terminates normally as a no-op: no exception
(`aggregate` returns `.ok`, and the others are total by construction) and
no report or chart is produced. -/
theorem C8_reports_are_noops_on_empty_fetch (w : World) (c : Cache)
    (fr : FetchResult)
    (hfetch : fetch_json_from_api w c = .ok fr)
    (hres : fr.result = none) :
    plot_exchange_rates w c = .ok none ∧
    aggregate_exchange_rates w c = .ok none ∧
    ∀ min_value max_value : ℚ,
      search_exchange_rates w c min_value max_value = .ok none := by
  refine ⟨?_, ?_, ?_⟩
  · simp only [plot_exchange_rates, hfetch, hres]
  · simp only [aggregate_exchange_rates, hfetch, hres]
  · intro min_value max_value
    simp only [search_exchange_rates, hfetch, hres]

/-- Claim C8 witness: with an empty cache and a 404 response the fetch is
empty, and all three reporting methods do nothing. -/
theorem C8_noop_witness :
    plot_exchange_rates ⟨true, some ⟨404, none⟩⟩ ⟨none, none⟩ = .ok none ∧
    aggregate_exchange_rates ⟨true, some ⟨404, none⟩⟩ ⟨none, none⟩ =
      .ok none ∧
    ∀ min_value max_value : ℚ,
      search_exchange_rates ⟨true, some ⟨404, none⟩⟩ ⟨none, none⟩
        min_value max_value = .ok none :=
  C8_reports_are_noops_on_empty_fetch ⟨true, some ⟨404, none⟩⟩
    ⟨none, none⟩ ⟨none, ⟨none, none⟩, true⟩ rfl rfl

/-- Claim C2 counterexample: cache miss, successful well-formed HTTP
response `{USD: 1}`.  The claim says a failing cache write does not stop
`fetch_json_from_api` from returning the parsed document; in fact the
cache-write call on line 41 passes only two arguments to `json().set`
(its required `obj` argument is missing) and raises `TypeError` before
any Redis I/O; `TypeError` is not in the `except` tuple on line 43, so
the method propagates the exception and the parsed document is never
returned (second conjunct: the claimed normal return does not occur). -/
theorem C2_counterexample_write_call_crashes :
    fetch_json_from_api ⟨true, some ⟨200, some ⟨some [("USD", 1)]⟩⟩⟩
        ⟨none, none⟩ = .error .typeError ∧
    fetch_json_from_api ⟨true, some ⟨200, some ⟨some [("USD", 1)]⟩⟩⟩
        ⟨none, none⟩ ≠
      .ok ⟨some ⟨some [("USD", 1)]⟩, ⟨some ⟨some [("USD", 1)]⟩, none⟩,
        true⟩ := by
  decide

/-- Claim C2 (amended): on a cache miss with a successful, well-formed
HTTP response, the cache write always fails — line 41 calls `json().set`
with two arguments where redis-py requires three, raising `TypeError`
before any Redis I/O — and that failure is not caught:
`fetch_json_from_api` propagates the exception instead of returning the
fetched document, and no cache write occurs. -/
theorem C2_write_call_always_raises (w : World) (c : Cache)
    (resp : HttpResponse) (d : Document)
    (hread : w.cacheReadOk = true)
    (hmiss : c.exchange_rate_data = none)
    (hresp : w.response = some resp)
    (hstatus : isHttpError resp.status = false)
    (hbody : resp.body = some d) :
    fetch_json_from_api w c = .error .typeError := by
  simp [fetch_json_from_api, hread, hmiss, hresp, hstatus, hbody]

/-- Claim C2 witness: the amended statement at a concrete 201 response. -/
theorem C2_write_call_witness :
    fetch_json_from_api ⟨true, some ⟨201, some ⟨some [("USD", 1)]⟩⟩⟩
      ⟨none, none⟩ = .error .typeError :=
  C2_write_call_always_raises
    ⟨true, some ⟨201, some ⟨some [("USD", 1)]⟩⟩⟩ ⟨none, none⟩
    ⟨201, some ⟨some [("USD", 1)]⟩⟩ ⟨some [("USD", 1)]⟩
    rfl rfl rfl (by decide) rfl

/-- Claim C3 counterexample: a 300 status with a well-formed JSON body is
a non-2xx status, but `raise_for_status` raises only for statuses in
`[400, 600)`, so execution falls through to line 41's malformed
`json().set` call and crashes with an uncaught `TypeError`:
`fetch_json_from_api` does not return `None` — it raises — and in
particular does not produce the empty normal return the claim requires
(second conjunct). -/
theorem C3_counterexample_status_300_crashes :
    fetch_json_from_api ⟨true, some ⟨300, some ⟨some [("EUR", 1)]⟩⟩⟩
        ⟨none, none⟩ = .error .typeError ∧
    fetch_json_from_api ⟨true, some ⟨300, some ⟨some [("EUR", 1)]⟩⟩⟩
        ⟨none, none⟩ ≠ .ok ⟨none, ⟨none, none⟩, true⟩ := by
  decide

/-- Claim C3 (amended): on a cache miss whose HTTP GET returns a 4xx or
5xx status — the statuses for which `raise_for_status` raises —
`fetch_json_from_api` returns `None` and the cache is left unchanged (no
cache write occurs).  A non-2xx status outside `[400, 600)` with a
well-formed body instead reaches line 41's malformed `json().set` call
and crashes with an uncaught `TypeError`, still without a cache write. -/
theorem C3_error_status_returns_none_no_write (w : World) (c : Cache)
    (resp : HttpResponse)
    (hread : w.cacheReadOk = true)
    (hmiss : c.exchange_rate_data = none)
    (hresp : w.response = some resp)
    (hlo : 400 ≤ resp.status) (hhi : resp.status < 600) :
    fetch_json_from_api w c = .ok ⟨none, c, true⟩ := by
  have hstatus : isHttpError resp.status = true := by
    simp [isHttpError, hlo, hhi]
  simp [fetch_json_from_api, hread, hmiss, hresp, hstatus]

/-- Claim C3 witness: the amended statement at a 404 response. -/
theorem C3_error_status_witness :
    fetch_json_from_api ⟨true, some ⟨404, none⟩⟩ ⟨none, none⟩ =
      .ok ⟨none, ⟨none, none⟩, true⟩ :=
  C3_error_status_returns_none_no_write
    ⟨true, some ⟨404, none⟩⟩ ⟨none, none⟩ ⟨404, none⟩
    rfl rfl rfl (by decide) (by decide)

/-- Claim C6 (code bug): the claimed cache round trip — a miss-triggered
fetch writes the document and the next call returns it from the cache
without a network request — is the spec's clear intent, but it is
impossible in the source.  A miss with a successful, well-formed response
crashes at line 41: `json().set` is called with two arguments where
redis-py's `JSONCommands.set(name, path, obj)` requires three, raising an
uncaught `TypeError` before any write, so the key is never populated and
no subsequent call can hit the cache.  (The sibling call on line 58 uses
the correct three-argument form, marking line 41 as a slip; independently,
the plain string GET on line 34 could not read back a `JSON.SET` key.)
This theorem evaluates the embedded code at the failing input: the first,
miss-triggered call propagates the exception and writes nothing, so the
claimed second-call cache hit can never happen. -/
theorem C6_round_trip_crashes_at_write :
    fetch_json_from_api ⟨true, some ⟨200, some ⟨some [("JPY", 150)]⟩⟩⟩
      ⟨none, none⟩ = .error .typeError := by
  decide

/-- Claim C9 counterexample: on an input document lacking the
`conversion_rates` field, the claim requires a no-op *that logs*; the
code's only `print` sits in the `except` clause, which is never reached —
`insert_into_redis` leaves the cache unchanged and logs nothing. -/
theorem C9_counterexample_missing_field_is_silent :
    (insert_into_redis true (.pyDict ⟨none⟩) ⟨none, none⟩).cache =
      ⟨none, none⟩ ∧
    (insert_into_redis true (.pyDict ⟨none⟩) ⟨none, none⟩).log = [] := by
  decide

/-- Claim C9 (amended): for every input document, `insert_into_redis`
(with the RedisJSON write succeeding) writes only the extracted
`conversion_rates` mapping under the key `"exchange_rates"`, leaving the
full-document entry `"exchange_rate_data"` unchanged; if the input lacks
the `conversion_rates` field it is a silent no-op — no log — that
modifies no cache key. -/
theorem C9_insert_writes_only_rates_key (d : Document) (c : Cache) :
    (∀ rates, d.conversion_rates = some rates →
      insert_into_redis true (.pyDict d) c =
        ⟨{ c with exchange_rates := some rates }, []⟩) ∧
    (d.conversion_rates = none →
      insert_into_redis true (.pyDict d) c = ⟨c, []⟩) := by
  constructor
  · intro rates h
    simp [insert_into_redis, insertBody, h]
  · intro h
    simp [insert_into_redis, insertBody, h]

/-- Claim C9 witness: inserting `{GBP: 150}` into a cache holding a full
document under `"exchange_rate_data"` overwrites only the
`"exchange_rates"` key. -/
theorem C9_insert_witness :
    insert_into_redis true (.pyDict ⟨some [("GBP", 150)]⟩)
      ⟨some ⟨some [("USD", 1)]⟩, none⟩ =
      ⟨⟨some ⟨some [("USD", 1)]⟩, some [("GBP", 150)]⟩, []⟩ :=
  (C9_insert_writes_only_rates_key ⟨some [("GBP", 150)]⟩
      ⟨some ⟨some [("USD", 1)]⟩, none⟩).1 [("GBP", 150)] rfl

/-- Claim C10: `insert_into_redis` never propagates an exception — it
totally returns an `InsertResult`, and whenever its `try` body raises
(`TypeError` on a non-dict input such as `None`, or `redis.RedisError`
from the write) the exception is caught and logged and no cache key is
modified; in particular on input `None` the membership test's `TypeError`
is caught, logged, and the cache is untouched. -/
theorem C10_insert_catches_every_exception (writeOk : Bool) (v : PyValue)
    (c : Cache) :
    (∀ e, insertBody writeOk v c = .error e →
      insert_into_redis writeOk v c = ⟨c, [e]⟩) ∧
    insert_into_redis writeOk .pyNone c = ⟨c, [.typeError]⟩ := by
  constructor
  · intro e h
    simp [insert_into_redis, h]
  · simp [insert_into_redis, insertBody]

/-- Claim C10 witness: input `None` against a nonempty cache — the
`TypeError` is caught and logged and the cache is unchanged. -/
theorem C10_insert_witness :
    insert_into_redis true .pyNone ⟨some ⟨some [("USD", 1)]⟩, none⟩ =
      ⟨⟨some ⟨some [("USD", 1)]⟩, none⟩, [.typeError]⟩ :=
  (C10_insert_catches_every_exception true .pyNone
      ⟨some ⟨some [("USD", 1)]⟩, none⟩).1 .typeError rfl

end DataProcessor
